import Mathlib

/-!
Verification of the quiet-hours-scheduler reminder engine.

This file gives a shallow embedding of the repository's scheduling logic:

* the cron sweep handler `GET`/`POST` of `src/src/app/api/cron/route.ts`
  (authorization gate, candidate fetch, expiry reconciliation, ready
  filter, due-window test, per-block dispatch loop, response summary);
* the creation flow `handleSubmit` of the create page (validation,
  overlap guard, insert payload).

Timestamps are modelled as `Int` milliseconds since the epoch (the code
compares `Date` values, which JavaScript compares by their millisecond
value).  External collaborators (the Supabase store reads/writes, the
profile lookup, the email transport) are modelled by an `Env` record of
oracles saying whether each external call succeeds, so that one sweep
invocation is a pure function of the store contents, the current
instant, and the environment.
-/

namespace QuietHours

/-- A row of the `quiet_blocks` table (columns used by the code:
`id`, `user_id`, `title`, `start_time`, `end_time`, `is_active`,
`reminder_sent`). -/
structure Block where
  id : Nat
  userId : Nat
  title : String
  startTime : Int
  endTime : Int
  isActive : Bool
  reminderSent : Bool
  deriving DecidableEq, Repr

/-- The columns selected by the `profiles` lookup (`email`, `full_name`). -/
structure Profile where
  email : Option String
  fullName : Option String
  deriving DecidableEq, Repr

/-- Outcomes of the external collaborators during one sweep invocation:
whether the candidate read succeeds, the profile row for each user id,
and whether the email transport / the two store updates succeed
(per block id for the per-block operations). -/
structure Env where
  fetchOk : Bool
  expireUpdateOk : Bool
  profile : Nat → Option Profile
  emailOk : Nat → Bool
  updateOk : Nat → Bool

/-- `5 * 60 * 1000` — the slack of the due window (route.ts line 149). -/
def fiveMinutesInMs : Int := 5 * 60 * 1000

/-- `10 * 60 * 1000` — the reminder lead (route.ts line 141). -/
def reminderLeadMs : Int := 10 * 60 * 1000

/-- `reminderTime = startTime - 10 minutes` (route.ts line 141). -/
def reminderTime (b : Block) : Int := b.startTime - reminderLeadMs

/-- The compound filter of the candidate query
`.eq('is_active', true).eq('reminder_sent', false)` (route.ts lines 72-76). -/
def isCandidate (b : Block) : Bool := b.isActive && !b.reminderSent

/-- The candidate read: returns the filtered rows, or `none` when the read
fails (route.ts lines 72-81). -/
def fetchQuietBlocks (env : Env) (store : List Block) : Option (List Block) :=
  if env.fetchOk then some (store.filter isCandidate) else none

/-- The expired filter `block.is_active && endTime < now`
(route.ts lines 84-87). -/
def isExpiredAt (now : Int) (b : Block) : Bool :=
  b.isActive && decide (b.endTime < now)

/-- The ready filter `startTime > now && endTime >= now`
(route.ts lines 102-114). -/
def isReadyAt (now : Int) (b : Block) : Bool :=
  decide (b.startTime > now) && decide (b.endTime ≥ now)

/-- The due-window test
`Math.abs(now - reminderTime) <= fiveMinutesInMs && now < startTime`
(route.ts lines 148-151). -/
def isDueAt (now : Int) (b : Block) : Bool :=
  decide (|now - reminderTime b| ≤ fiveMinutesInMs) && decide (now < b.startTime)

/-- A block is selected for a reminder dispatch when it survives the ready
filter and then passes the due-window test. -/
def selectedAt (now : Int) (b : Block) : Bool := isReadyAt now b && isDueAt now b

/-- Boolean membership in a list of ids (the `.in('id', ids)` filter). -/
def idMem (i : Nat) : List Nat → Bool
  | [] => false
  | j :: js => (i == j) || idMem i js

/-- The bulk update `update({ is_active: false }).in('id', ids)`
(route.ts lines 91-94). -/
def deactivateByIds (ids : List Nat) (store : List Block) : List Block :=
  store.map fun b => if idMem b.id ids then { b with isActive := false } else b

/-- The per-block update `update({ reminder_sent: true }).eq('id', i)`
(route.ts lines 188-191). -/
def markReminderSent (i : Nat) (store : List Block) : List Block :=
  store.map fun b => if b.id = i then { b with reminderSent := true } else b

/-- What the body of the per-block loop does with one ready block
(route.ts lines 138-215). -/
inductive Outcome
  | notDue
  | skippedProfile
  | skippedNoEmail
  | sent
  | markFailed
  | emailFailed
  deriving DecidableEq, Repr

/-- The decision taken for one ready block: the due-window test, the
profile lookup, the missing-email check, the email transport call, and
the reminder-sent store update (route.ts lines 138-215). -/
def processBlock (env : Env) (now : Int) (b : Block) : Outcome :=
  if isDueAt now b then
    match env.profile b.userId with
    | none => .skippedProfile
    | some p =>
      match p.email with
      | none => .skippedNoEmail
      | some _ =>
        if env.emailOk b.id then
          if env.updateOk b.id then .sent else .markFailed
        else .emailFailed
  else .notDue

/-- True exactly when the email transport is invoked for the block:
the block is due and the owner's contact resolution yielded an email. -/
def dispatchAttempted (env : Env) (now : Int) (b : Block) : Bool :=
  match processBlock env now b with
  | .sent => true
  | .markFailed => true
  | .emailFailed => true
  | _ => false

/-- True exactly when the email transport is invoked for the block and
returns success. -/
def dispatchSucceeded (env : Env) (now : Int) (b : Block) : Bool :=
  dispatchAttempted env now b && env.emailOk b.id

/-- The mutable state of the per-block loop: the `sentCount` and
`errorCount` counters, the list of block ids for which the transport was
invoked, and the current store contents. -/
structure LoopState where
  sentCount : Nat
  errorCount : Nat
  attempts : List Nat
  store : List Block

/-- One iteration of the `for (const block of activeBlocks)` loop
(route.ts lines 138-215). -/
def stepBlock (env : Env) (now : Int) (s : LoopState) (b : Block) : LoopState :=
  match processBlock env now b with
  | .notDue => s
  | .skippedProfile => s
  | .skippedNoEmail => s
  | .sent =>
    { s with sentCount := s.sentCount + 1, attempts := s.attempts ++ [b.id],
             store := markReminderSent b.id s.store }
  | .markFailed =>
    { s with errorCount := s.errorCount + 1, attempts := s.attempts ++ [b.id] }
  | .emailFailed =>
    { s with errorCount := s.errorCount + 1, attempts := s.attempts ++ [b.id] }

/-- The four JSON responses the handler can produce: 401 unauthorized,
500 on candidate-read failure, the 200 no-active-blocks payload
`{ message, timestamp, checked, expired, sent, debug }` (route.ts
lines 119-132), and the 200 summary
`{ message, timestamp, processed, sent, errors }` (route.ts lines 217-225). -/
inductive Response
  | unauthorized
  | fetchError
  | noActive (timestamp : Int) (checked expired sent : Nat)
  | completed (timestamp : Int) (processed sent errors : Nat)
  deriving DecidableEq, Repr

/-- The HTTP status code of each response. -/
def Response.statusCode : Response → Nat
  | .unauthorized => 401
  | .fetchError => 500
  | .noActive .. => 200
  | .completed .. => 200

/-- Whether the response JSON carries a `processed` field. -/
def Response.hasProcessedField : Response → Bool
  | .completed .. => true
  | _ => false

/-- Whether the response JSON carries an `errors` field. -/
def Response.hasErrorsField : Response → Bool
  | .completed .. => true
  | _ => false

/-- The observable result of one handler invocation: the HTTP response,
the store contents afterwards, and the ids of blocks for which the email
transport was invoked. -/
structure SweepOut where
  resp : Response
  store : List Block
  attempts : List Nat
  deriving Repr

/-- One sweep invocation (route.ts lines 60-225, after the authorization
gate): fetch candidates, deactivate expired blocks, filter ready blocks,
early-return when none is ready, otherwise run the per-block loop and
return the summary. -/
def sweep (env : Env) (now : Int) (store : List Block) : SweepOut :=
  match fetchQuietBlocks env store with
  | none => ⟨.fetchError, store, []⟩
  | some quietBlocks =>
    let expiredBlocks := quietBlocks.filter (isExpiredAt now)
    let store1 :=
      if expiredBlocks.length > 0 then
        if env.expireUpdateOk then
          deactivateByIds (expiredBlocks.map (·.id)) store
        else store
      else store
    let activeBlocks := quietBlocks.filter (isReadyAt now)
    if activeBlocks.length = 0 then
      ⟨.noActive now quietBlocks.length expiredBlocks.length 0, store1, []⟩
    else
      let fin := activeBlocks.foldl (stepBlock env now) ⟨0, 0, [], store1⟩
      ⟨.completed now quietBlocks.length fin.sentCount fin.errorCount,
        fin.store, fin.attempts⟩

/-- Character-list version of `needle.isPrefixOf hay`. -/
def leadsWith : List Char → List Char → Bool
  | [], _ => true
  | _ :: _, [] => false
  | a :: as, b :: bs => (a == b) && leadsWith as bs

/-- Character-list substring search. -/
def occursIn (needle : List Char) : List Char → Bool
  | [] => needle.isEmpty
  | c :: cs => leadsWith needle (c :: cs) || occursIn needle cs

/-- JavaScript's `hay.includes(needle)`. -/
def strIncludes (hay needle : String) : Bool := occursIn needle.toList hay.toList

/-- `userAgent?.includes('cron-job.org') || userAgent?.includes('cron-job')
|| userAgent?.includes('UptimeRobot')` (route.ts lines 39-41). -/
def isKnownCronService (userAgent : Option String) : Bool :=
  match userAgent with
  | none => false
  | some ua =>
    strIncludes ua "cron-job.org" || strIncludes ua "cron-job" ||
      strIncludes ua "UptimeRobot"

/-- The authorization gate (route.ts lines 30-58): with a configured
secret, a request not presenting `Bearer <secret>` is rejected exactly in
production when the user agent is not a known cron service; without a
configured secret every request is allowed. -/
def allowRequest (cronSecret authHeader userAgent : Option String)
    (isProduction : Bool) : Bool :=
  match cronSecret with
  | some secret =>
    if authHeader == some ("Bearer " ++ secret) then true
    else if isProduction && !(isKnownCronService userAgent) then false
    else true
  | none => true

/-- The request data the authorization gate reads. -/
structure Request where
  authHeader : Option String
  userAgent : Option String

/-- The `GET` handler (route.ts lines 28-234): authorization gate, then
the sweep.  An unauthorized request returns 401 and touches nothing. -/
def handleGET (env : Env) (req : Request) (cronSecret : Option String)
    (isProduction : Bool) (now : Int) (store : List Block) : SweepOut :=
  if allowRequest cronSecret req.authHeader req.userAgent isProduction then
    sweep env now store
  else
    ⟨.unauthorized, store, []⟩

/-- The `POST` handler (route.ts lines 237-239): it just calls `GET`. -/
def handlePOST (env : Env) (req : Request) (cronSecret : Option String)
    (isProduction : Bool) (now : Int) (store : List Block) : SweepOut :=
  handleGET env req cronSecret isProduction now store

/-- A row of the snapshot the overlap check reads
(`select('start_time, end_time')`, part_000 lines 82-86). -/
structure ExistingBlock where
  startTime : Int
  endTime : Int
  deriving DecidableEq, Repr

/-- The overlap test of `handleSubmit` (part_000 lines 97-105): the loop
throws on the first existing block with
`newStart < existingEnd && newEnd > existingStart`. -/
def overlapsAny (newStart newEnd : Int) (existing : List ExistingBlock) : Bool :=
  existing.any fun b =>
    decide (newStart < b.endTime) && decide (newEnd > b.startTime)

/-- The row inserted on creation (part_000 lines 108-115). -/
structure InsertData where
  userId : Nat
  title : String
  startTime : Int
  endTime : Int
  isActive : Bool
  reminderSent : Bool
  deriving DecidableEq, Repr

/-- The possible results of the creation flow. -/
inductive SubmitOutcome
  | emptyTitle
  | noStart
  | noEnd
  | badRange
  | checkFailed
  | overlapRejected
  | inserted (d : InsertData)
  deriving DecidableEq, Repr

/-- JavaScript's `String.prototype.trim`, written over the character list
so that it evaluates inside the kernel. -/
def jsTrim (s : String) : String :=
  ⟨((s.data.dropWhile Char.isWhitespace).reverse.dropWhile
      Char.isWhitespace).reverse⟩

/-- The creation flow `handleSubmit` (part_000 lines 39-158): title and
time validation, `start >= end` range check, snapshot read of the owner's
active blocks (`checkOk` says whether it succeeds), the overlap guard,
then the insert with `is_active: true, reminder_sent: false`. -/
def handleSubmit (userId : Nat) (title : String)
    (startTime endTime : Option Int) (checkOk : Bool)
    (existing : List ExistingBlock) : SubmitOutcome :=
  if (jsTrim title).data.isEmpty then .emptyTitle
  else
    match startTime with
    | none => .noStart
    | some s =>
      match endTime with
      | none => .noEnd
      | some e =>
        if s ≥ e then .badRange
        else if !checkOk then .checkFailed
        else if overlapsAny s e existing then .overlapRejected
        else .inserted { userId := userId, title := jsTrim title,
                         startTime := s, endTime := e, isActive := true,
                         reminderSent := false }

/-! ### Derived views of one sweep invocation -/

/-- The candidate rows the sweep reads. -/
def candidatesOf (store : List Block) : List Block := store.filter isCandidate

/-- The blocks that survive the ready filter (the code's `activeBlocks`). -/
def readyOf (now : Int) (store : List Block) : List Block :=
  (candidatesOf store).filter (isReadyAt now)

/-- The blocks the sweep deactivates (the code's `expiredBlocks`). -/
def expiredOf (now : Int) (store : List Block) : List Block :=
  (candidatesOf store).filter (isExpiredAt now)

/-- The ids of the expired blocks. -/
def expiredIdsOf (now : Int) (store : List Block) : List Nat :=
  (expiredOf now store).map (·.id)

/-- The ids of the blocks of `ready` whose processing ends in `sent`. -/
def sentIdsOf (env : Env) (now : Int) (ready : List Block) : List Nat :=
  (ready.filter fun b => decide (processBlock env now b = .sent)).map (·.id)

/-- The ready blocks that are dispatched and marked successfully. -/
def sentBlocksOf (env : Env) (now : Int) (store : List Block) : List Block :=
  (readyOf now store).filter fun b => decide (processBlock env now b = .sent)

/-- The ready blocks counted by the `errorCount` counter. -/
def errorBlocksOf (env : Env) (now : Int) (store : List Block) : List Block :=
  (readyOf now store).filter fun b =>
    decide (processBlock env now b = .markFailed) ||
      decide (processBlock env now b = .emailFailed)

/-- Pointwise form of the reminder-sent updates of one sweep. -/
def markByIds (ids : List Nat) (store : List Block) : List Block :=
  store.map fun b => if idMem b.id ids then { b with reminderSent := true } else b

/-- What one sweep invocation does to a single stored row: deactivation if
the row is among the expired ids (and that bulk update succeeds), then the
reminder-sent flag if the row is among the successfully dispatched ids. -/
def sweepXform (env : Env) (now : Int) (store : List Block) (b : Block) : Block :=
  let b1 :=
    if env.expireUpdateOk && idMem b.id (expiredIdsOf now store) then
      { b with isActive := false }
    else b
  if idMem b.id (sentIdsOf env now (readyOf now store)) then
    { b1 with reminderSent := true }
  else b1

/-- Row lookup by id. -/
def findById (i : Nat) (store : List Block) : Option Block :=
  store.find? fun b => b.id == i

/-! ### Basic lemmas -/

theorem idMem_eq_true_iff (i : Nat) (l : List Nat) : idMem i l = true ↔ i ∈ l := by
  induction l with
  | nil => simp [idMem]
  | cons j js ih => simp [idMem, ih]

theorem markByIds_nil (store : List Block) : markByIds [] store = store := by
  simp [markByIds, idMem]

theorem deactivateByIds_nil (store : List Block) :
    deactivateByIds [] store = store := by
  simp [deactivateByIds, idMem]

theorem markByIds_markReminderSent (i : Nat) (ids : List Nat)
    (st : List Block) :
    markByIds ids (markReminderSent i st) = markByIds (i :: ids) st := by
  unfold markByIds markReminderSent
  rw [List.map_map]
  apply List.map_congr_left
  intro b _
  by_cases hb : b.id = i
  · simp [Function.comp, hb, idMem]
  · simp [Function.comp, hb, idMem]

/-! ### The per-block loop -/

theorem foldl_store_char (env : Env) (now : Int) :
    ∀ (ready : List Block) (s : LoopState),
      (ready.foldl (stepBlock env now) s).store
        = markByIds (sentIdsOf env now ready) s.store := by
  intro ready
  induction ready with
  | nil => intro s; simp [sentIdsOf, markByIds_nil]
  | cons r rest ih =>
    intro s
    rw [List.foldl_cons, ih]
    cases h : processBlock env now r with
    | sent =>
      have hs : sentIdsOf env now (r :: rest) = r.id :: sentIdsOf env now rest := by
        simp [sentIdsOf, List.filter_cons, h]
      rw [hs]
      have hstep : (stepBlock env now s r).store = markReminderSent r.id s.store := by
        simp [stepBlock, h]
      rw [hstep, markByIds_markReminderSent]
    | notDue =>
      have hs : sentIdsOf env now (r :: rest) = sentIdsOf env now rest := by
        simp [sentIdsOf, List.filter_cons, h]
      have hstep : (stepBlock env now s r).store = s.store := by
        simp [stepBlock, h]
      rw [hs, hstep]
    | skippedProfile =>
      have hs : sentIdsOf env now (r :: rest) = sentIdsOf env now rest := by
        simp [sentIdsOf, List.filter_cons, h]
      have hstep : (stepBlock env now s r).store = s.store := by
        simp [stepBlock, h]
      rw [hs, hstep]
    | skippedNoEmail =>
      have hs : sentIdsOf env now (r :: rest) = sentIdsOf env now rest := by
        simp [sentIdsOf, List.filter_cons, h]
      have hstep : (stepBlock env now s r).store = s.store := by
        simp [stepBlock, h]
      rw [hs, hstep]
    | markFailed =>
      have hs : sentIdsOf env now (r :: rest) = sentIdsOf env now rest := by
        simp [sentIdsOf, List.filter_cons, h]
      have hstep : (stepBlock env now s r).store = s.store := by
        simp [stepBlock, h]
      rw [hs, hstep]
    | emailFailed =>
      have hs : sentIdsOf env now (r :: rest) = sentIdsOf env now rest := by
        simp [sentIdsOf, List.filter_cons, h]
      have hstep : (stepBlock env now s r).store = s.store := by
        simp [stepBlock, h]
      rw [hs, hstep]

theorem foldl_sentCount_char (env : Env) (now : Int) :
    ∀ (ready : List Block) (s : LoopState),
      (ready.foldl (stepBlock env now) s).sentCount
        = s.sentCount
            + (ready.filter fun b => decide (processBlock env now b = .sent)).length := by
  intro ready
  induction ready with
  | nil => intro s; simp
  | cons r rest ih =>
    intro s
    rw [List.foldl_cons, ih]
    cases h : processBlock env now r <;>
      simp [stepBlock, h, List.filter_cons, Nat.add_assoc, Nat.add_comm 1]

theorem foldl_errorCount_char (env : Env) (now : Int) :
    ∀ (ready : List Block) (s : LoopState),
      (ready.foldl (stepBlock env now) s).errorCount
        = s.errorCount
            + (ready.filter fun b =>
                decide (processBlock env now b = .markFailed) ||
                  decide (processBlock env now b = .emailFailed)).length := by
  intro ready
  induction ready with
  | nil => intro s; simp
  | cons r rest ih =>
    intro s
    rw [List.foldl_cons, ih]
    cases h : processBlock env now r <;>
      simp [stepBlock, h, List.filter_cons] <;> omega

theorem foldl_attempts_char (env : Env) (now : Int) :
    ∀ (ready : List Block) (s : LoopState),
      (ready.foldl (stepBlock env now) s).attempts
        = s.attempts ++ (ready.filter (dispatchAttempted env now)).map (·.id) := by
  intro ready
  induction ready with
  | nil => intro s; simp
  | cons r rest ih =>
    intro s
    rw [List.foldl_cons, ih]
    cases h : processBlock env now r <;>
      simp [stepBlock, h, dispatchAttempted, List.filter_cons]

/-! ### Characterizations of one sweep invocation -/

theorem sweep_fetchFail (env : Env) (now : Int) (store : List Block)
    (hf : env.fetchOk = false) :
    sweep env now store = ⟨.fetchError, store, []⟩ := by
  have h : fetchQuietBlocks env store = none := by
    simp [fetchQuietBlocks, hf]
  unfold sweep
  rw [h]

theorem sweep_store_char (env : Env) (now : Int) (store : List Block)
    (hf : env.fetchOk = true) :
    (sweep env now store).store
      = markByIds (sentIdsOf env now (readyOf now store))
          (if env.expireUpdateOk then
            deactivateByIds (expiredIdsOf now store) store
          else store) := by
  have h : fetchQuietBlocks env store = some (candidatesOf store) := by
    simp [fetchQuietBlocks, hf, candidatesOf]
  unfold sweep
  rw [h]
  simp only [readyOf, expiredOf, expiredIdsOf]
  by_cases hact : ((candidatesOf store).filter (isReadyAt now)).length = 0
  · rw [if_pos hact]
    have hready := List.length_eq_zero.mp hact
    rw [hready]
    simp only [sentIdsOf, List.filter_nil, List.map_nil, markByIds_nil]
    by_cases hexp : ((candidatesOf store).filter (isExpiredAt now)).length > 0
    · rw [if_pos hexp]
    · rw [if_neg hexp]
      have hexp' : (candidatesOf store).filter (isExpiredAt now) = [] := by
        rw [← List.length_eq_zero]; omega
      rw [hexp']
      simp [deactivateByIds_nil]
  · rw [if_neg hact]
    simp only [foldl_store_char]
    by_cases hexp : ((candidatesOf store).filter (isExpiredAt now)).length > 0
    · rw [if_pos hexp]
    · rw [if_neg hexp]
      have hexp' : (candidatesOf store).filter (isExpiredAt now) = [] := by
        rw [← List.length_eq_zero]; omega
      rw [hexp']
      simp [deactivateByIds_nil]

theorem sweep_resp_char (env : Env) (now : Int) (store : List Block)
    (hf : env.fetchOk = true) :
    (sweep env now store).resp
      = if (readyOf now store).length = 0 then
          Response.noActive now (candidatesOf store).length
            (expiredOf now store).length 0
        else
          Response.completed now (candidatesOf store).length
            (sentBlocksOf env now store).length
            (errorBlocksOf env now store).length := by
  have h : fetchQuietBlocks env store = some (candidatesOf store) := by
    simp [fetchQuietBlocks, hf, candidatesOf]
  unfold sweep
  rw [h]
  simp only [readyOf, expiredOf, sentBlocksOf, errorBlocksOf]
  by_cases hact : ((candidatesOf store).filter (isReadyAt now)).length = 0
  · rw [if_pos hact, if_pos hact]
  · rw [if_neg hact, if_neg hact]
    simp only [foldl_sentCount_char, foldl_errorCount_char]
    simp [readyOf]

theorem sweep_attempts_char (env : Env) (now : Int) (store : List Block)
    (hf : env.fetchOk = true) :
    (sweep env now store).attempts
      = ((readyOf now store).filter (dispatchAttempted env now)).map (·.id) := by
  have h : fetchQuietBlocks env store = some (candidatesOf store) := by
    simp [fetchQuietBlocks, hf, candidatesOf]
  unfold sweep
  rw [h]
  simp only [readyOf]
  by_cases hact : ((candidatesOf store).filter (isReadyAt now)).length = 0
  · rw [if_pos hact]
    have hready := List.length_eq_zero.mp hact
    rw [hready]
    simp
  · rw [if_neg hact]
    simp only [foldl_attempts_char]
    simp

theorem sweepXform_id (env : Env) (now : Int) (store : List Block) (b : Block) :
    (sweepXform env now store b).id = b.id := by
  unfold sweepXform
  by_cases h1 : (env.expireUpdateOk && idMem b.id (expiredIdsOf now store)) = true <;>
    by_cases h2 : idMem b.id (sentIdsOf env now (readyOf now store)) = true <;>
      simp [h1, h2]

theorem sweepXform_userId (env : Env) (now : Int) (store : List Block) (b : Block) :
    (sweepXform env now store b).userId = b.userId := by
  unfold sweepXform
  by_cases h1 : (env.expireUpdateOk && idMem b.id (expiredIdsOf now store)) = true <;>
    by_cases h2 : idMem b.id (sentIdsOf env now (readyOf now store)) = true <;>
      simp [h1, h2]

theorem sweepXform_startTime (env : Env) (now : Int) (store : List Block) (b : Block) :
    (sweepXform env now store b).startTime = b.startTime := by
  unfold sweepXform
  by_cases h1 : (env.expireUpdateOk && idMem b.id (expiredIdsOf now store)) = true <;>
    by_cases h2 : idMem b.id (sentIdsOf env now (readyOf now store)) = true <;>
      simp [h1, h2]

theorem sweepXform_endTime (env : Env) (now : Int) (store : List Block) (b : Block) :
    (sweepXform env now store b).endTime = b.endTime := by
  unfold sweepXform
  by_cases h1 : (env.expireUpdateOk && idMem b.id (expiredIdsOf now store)) = true <;>
    by_cases h2 : idMem b.id (sentIdsOf env now (readyOf now store)) = true <;>
      simp [h1, h2]

theorem sweepXform_reminderSent (env : Env) (now : Int) (store : List Block)
    (b : Block) :
    (sweepXform env now store b).reminderSent
      = (b.reminderSent || idMem b.id (sentIdsOf env now (readyOf now store))) := by
  unfold sweepXform
  by_cases h1 : (env.expireUpdateOk && idMem b.id (expiredIdsOf now store)) = true <;>
    by_cases h2 : idMem b.id (sentIdsOf env now (readyOf now store)) = true <;>
      simp [h1, h2]

theorem sweepXform_isActive (env : Env) (now : Int) (store : List Block)
    (b : Block) :
    (sweepXform env now store b).isActive
      = (b.isActive && !(env.expireUpdateOk && idMem b.id (expiredIdsOf now store))) := by
  unfold sweepXform
  by_cases h1 : (env.expireUpdateOk && idMem b.id (expiredIdsOf now store)) = true <;>
    by_cases h2 : idMem b.id (sentIdsOf env now (readyOf now store)) = true <;>
      simp [h1, h2]

theorem sweepXform_eq_self (env : Env) (now : Int) (store : List Block)
    (b : Block)
    (h1 : idMem b.id (expiredIdsOf now store) = false)
    (h2 : idMem b.id (sentIdsOf env now (readyOf now store)) = false) :
    sweepXform env now store b = b := by
  unfold sweepXform
  simp [h1, h2]

theorem sweep_store_map (env : Env) (now : Int) (store : List Block)
    (hf : env.fetchOk = true) :
    (sweep env now store).store = store.map (sweepXform env now store) := by
  rw [sweep_store_char env now store hf]
  by_cases he : env.expireUpdateOk = true
  · rw [if_pos he]
    unfold markByIds deactivateByIds
    rw [List.map_map]
    apply List.map_congr_left
    intro b _
    unfold sweepXform
    by_cases h1 : idMem b.id (expiredIdsOf now store) = true <;>
      by_cases h2 : idMem b.id (sentIdsOf env now (readyOf now store)) = true <;>
        simp [Function.comp, he, h1, h2]
  · rw [if_neg he]
    unfold markByIds
    apply List.map_congr_left
    intro b _
    unfold sweepXform
    have he' : env.expireUpdateOk = false := by
      cases h : env.expireUpdateOk
      · rfl
      · exact absurd h he
    by_cases h2 : idMem b.id (sentIdsOf env now (readyOf now store)) = true <;>
      simp [he', h2]

/-! ### Row lookup -/

theorem findById_map (f : Block → Block) (hid : ∀ b, (f b).id = b.id)
    (i : Nat) (store : List Block) :
    findById i (store.map f) = (findById i store).map f := by
  unfold findById
  rw [List.find?_map]
  have hp : ((fun b => b.id == i) ∘ f) = (fun b : Block => b.id == i) := by
    funext b
    simp [Function.comp, hid]
  rw [hp]

theorem findById_id (i : Nat) (store : List Block) (b : Block)
    (hb : findById i store = some b) : b.id = i := by
  have := List.find?_some hb
  simpa using this

theorem findById_mem (i : Nat) (store : List Block) (b : Block)
    (hb : findById i store = some b) : b ∈ store :=
  List.mem_of_find?_eq_some hb

theorem same_id_eq (store : List Block)
    (hnd : (store.map (·.id)).Nodup) (a b : Block)
    (ha : a ∈ store) (hb : b ∈ store) (h : a.id = b.id) : a = b :=
  List.inj_on_of_nodup_map hnd ha hb h

theorem findById_of_mem (store : List Block)
    (hnd : (store.map (·.id)).Nodup) (b : Block) (hb : b ∈ store) :
    findById b.id store = some b := by
  cases h : findById b.id store with
  | none =>
    unfold findById at h
    rw [List.find?_eq_none] at h
    exact absurd (beq_self_eq_true b.id) (h b hb)
  | some x =>
    have hx : x.id = b.id := findById_id _ _ _ h
    have hmem : x ∈ store := findById_mem _ _ _ h
    rw [same_id_eq store hnd x b hmem hb hx]

theorem findById_sweep (env : Env) (now : Int) (store : List Block)
    (hf : env.fetchOk = true) (i : Nat) (b : Block)
    (hb : findById i store = some b) :
    findById i (sweep env now store).store
      = some (sweepXform env now store b) := by
  rw [sweep_store_map env now store hf,
    findById_map _ (sweepXform_id env now store) i store, hb]
  rfl

/-! ### Facts about the per-block decision -/

theorem processBlock_notDue (env : Env) (now : Int) (b : Block)
    (h : isDueAt now b = false) : processBlock env now b = .notDue := by
  simp [processBlock, h]

theorem processBlock_due_contact (env : Env) (now : Int) (b : Block)
    (p : Profile) (em : String) (hd : isDueAt now b = true)
    (hp : env.profile b.userId = some p) (he : p.email = some em) :
    processBlock env now b
      = (if env.emailOk b.id then
          (if env.updateOk b.id then .sent else .markFailed)
        else .emailFailed) := by
  simp [processBlock, hd, hp, he]

theorem processBlock_sent_isDue (env : Env) (now : Int) (b : Block)
    (h : processBlock env now b = .sent) : isDueAt now b = true := by
  by_cases hd : isDueAt now b = true
  · exact hd
  · rw [processBlock, if_neg hd] at h
    exact absurd h (by decide)

theorem processBlock_sent_emailOk (env : Env) (now : Int) (b : Block)
    (h : processBlock env now b = .sent) : env.emailOk b.id = true := by
  unfold processBlock at h
  split at h
  · split at h
    · exact absurd h (by decide)
    · split at h
      · exact absurd h (by decide)
      · split at h
        · assumption
        · exact absurd h (by decide)
  · exact absurd h (by decide)

theorem processBlock_sent_updateOk (env : Env) (now : Int) (b : Block)
    (h : processBlock env now b = .sent) : env.updateOk b.id = true := by
  unfold processBlock at h
  split at h
  · split at h
    · exact absurd h (by decide)
    · split at h
      · exact absurd h (by decide)
      · split at h
        · split at h
          · assumption
          · exact absurd h (by decide)
        · exact absurd h (by decide)
  · exact absurd h (by decide)

theorem dispatchAttempted_of_contact (env : Env) (now : Int) (b : Block)
    (p : Profile) (em : String) (hd : isDueAt now b = true)
    (hp : env.profile b.userId = some p) (he : p.email = some em) :
    dispatchAttempted env now b = true := by
  have hpb := processBlock_due_contact env now b p em hd hp he
  unfold dispatchAttempted
  rw [hpb]
  by_cases hek : env.emailOk b.id = true
  · by_cases hu : env.updateOk b.id = true
    · simp [hek, hu]
    · simp [hek, hu]
  · simp [hek]

/-! ### Membership views -/

theorem isCandidate_iff (b : Block) :
    isCandidate b = true ↔ b.isActive = true ∧ b.reminderSent = false := by
  simp [isCandidate]

theorem mem_candidatesOf_iff (store : List Block) (b : Block) :
    b ∈ candidatesOf store ↔ b ∈ store ∧ isCandidate b = true := by
  simp [candidatesOf, List.mem_filter]

theorem mem_readyOf_iff (now : Int) (store : List Block) (b : Block) :
    b ∈ readyOf now store
      ↔ b ∈ store ∧ isCandidate b = true ∧ isReadyAt now b = true := by
  simp [readyOf, candidatesOf, List.mem_filter]
  tauto

theorem idMem_sentIdsOf_iff (env : Env) (now : Int) (ready : List Block)
    (j : Nat) :
    idMem j (sentIdsOf env now ready) = true
      ↔ ∃ r ∈ ready, r.id = j ∧ processBlock env now r = .sent := by
  rw [idMem_eq_true_iff]
  simp [sentIdsOf, List.mem_map, List.mem_filter]
  tauto

theorem idMem_expiredIdsOf_iff (now : Int) (store : List Block) (j : Nat) :
    idMem j (expiredIdsOf now store) = true
      ↔ ∃ r ∈ store, isCandidate r = true ∧ isExpiredAt now r = true ∧ r.id = j := by
  rw [idMem_eq_true_iff]
  simp [expiredIdsOf, expiredOf, candidatesOf, List.mem_map, List.mem_filter]
  tauto

theorem idMem_sweep_attempts_iff (env : Env) (now : Int) (store : List Block)
    (hf : env.fetchOk = true) (j : Nat) :
    idMem j (sweep env now store).attempts = true
      ↔ ∃ r ∈ readyOf now store, dispatchAttempted env now r = true ∧ r.id = j := by
  rw [sweep_attempts_char env now store hf, idMem_eq_true_iff]
  simp [List.mem_map, List.mem_filter]
  tauto

theorem allowRequest_false_iff (cs ah ua : Option String) (prod : Bool) :
    allowRequest cs ah ua prod = false
      ↔ prod = true ∧ isKnownCronService ua = false
          ∧ ∃ s, cs = some s ∧ ah ≠ some ("Bearer " ++ s) := by
  cases cs with
  | none => simp [allowRequest]
  | some s =>
    by_cases hh : ah = some ("Bearer " ++ s)
    · simp [allowRequest, hh]
    · have hb : (ah == some ("Bearer " ++ s)) = false := by
        simp [hh]
      cases prod with
      | false => simp [allowRequest, hb, hh]
      | true =>
        cases hk : isKnownCronService ua with
        | false => simp [allowRequest, hb, hk, hh]
        | true => simp [allowRequest, hb, hk, hh]

theorem sweep_resp_ne_unauthorized (env : Env) (now : Int) (store : List Block) :
    (sweep env now store).resp ≠ .unauthorized := by
  by_cases hf : env.fetchOk = true
  · rw [sweep_resp_char env now store hf]
    by_cases h : (readyOf now store).length = 0
    · rw [if_pos h]
      simp
    · rw [if_neg h]
      simp
  · have hf' : env.fetchOk = false := by
      cases h : env.fetchOk
      · rfl
      · exact absurd h hf
    rw [sweep_fetchFail env now store hf']
    simp

/-! ### The claims -/

/-- C1: during a sweep at instant `now`, a candidate block (active,
reminder not yet sent) that has not expired (`now ≤ end`) is selected for
a reminder dispatch iff its start is strictly after `now` and
`|now - (start - 10 minutes)| ≤ 5 minutes`; in particular a block with
`now = start - 10 minutes` is due, one with
`now = reminderAt - slack - 1` is not due, and one with
`now = reminderAt + slack + 1` is not selected. -/
theorem c1_due_window_selection (now : Int) (b : Block)
    (hA : b.isActive = true) (hR : b.reminderSent = false)
    (hE : now ≤ b.endTime) :
    (∀ store : List Block, b ∈ store →
        (b ∈ readyOf now store ∧ isDueAt now b = true ↔ selectedAt now b = true))
    ∧ (selectedAt now b = true
        ↔ now < b.startTime
            ∧ |now - (b.startTime - reminderLeadMs)| ≤ fiveMinutesInMs)
    ∧ (now = reminderTime b → selectedAt now b = true)
    ∧ (now = reminderTime b - fiveMinutesInMs - 1 → selectedAt now b = false)
    ∧ (now = reminderTime b + fiveMinutesInMs + 1 → selectedAt now b = false) := by
  refine ⟨?_, ?_, ?_, ?_, ?_⟩
  · intro store hmem
    rw [mem_readyOf_iff]
    simp [selectedAt, hmem, isCandidate, hA, hR]
  · simp only [selectedAt, isReadyAt, isDueAt, reminderTime, reminderLeadMs,
      fiveMinutesInMs, Bool.and_eq_true, decide_eq_true_eq, abs_le]
    omega
  · intro h
    subst h
    simp only [reminderTime, reminderLeadMs] at hE
    simp only [selectedAt, isReadyAt, isDueAt, reminderTime, reminderLeadMs,
      fiveMinutesInMs, Bool.and_eq_true, decide_eq_true_eq, abs_le]
    omega
  · intro h
    subst h
    simp only [reminderTime, reminderLeadMs, fiveMinutesInMs] at hE
    rw [Bool.eq_false_iff]
    simp only [ne_eq, selectedAt, isReadyAt, isDueAt, reminderTime,
      reminderLeadMs, fiveMinutesInMs, Bool.and_eq_true, decide_eq_true_eq,
      abs_le]
    omega
  · intro h
    subst h
    simp only [reminderTime, reminderLeadMs, fiveMinutesInMs] at hE
    rw [Bool.eq_false_iff]
    simp only [ne_eq, selectedAt, isReadyAt, isDueAt, reminderTime,
      reminderLeadMs, fiveMinutesInMs, Bool.and_eq_true, decide_eq_true_eq,
      abs_le]
    omega

/-- Witness for C1 at a concrete input: a block starting 10 minutes after
`now = 0` is selected. -/
theorem c1_due_window_selection_witness :
    selectedAt 0 (Block.mk 1 1 "t" 600000 1200000 true false) = true :=
  (c1_due_window_selection 0 (Block.mk 1 1 "t" 600000 1200000 true false)
    rfl rfl (by decide)).2.2.1 (by decide)

/-- C3: for a creation request with `end > start`, the overlap guard
rejects iff some existing active block `b` of the owner satisfies
`start < b.end ∧ end > b.start`; a new block starting at an existing
block's end is admitted, one starting at an existing block's start is
rejected. -/
theorem c3_overlap_guard (u : Nat) (t : String)
    (ht : (jsTrim t).data.isEmpty = false) (s e : Int) (hr : s < e)
    (existing : List ExistingBlock) :
    (overlapsAny s e existing = true
        ↔ ∃ b ∈ existing, s < b.endTime ∧ e > b.startTime)
    ∧ (handleSubmit u t (some s) (some e) true existing = .overlapRejected
        ↔ overlapsAny s e existing = true)
    ∧ (∀ x : ExistingBlock, ∀ e2 : Int,
        x.endTime < e2 → overlapsAny x.endTime e2 [x] = false)
    ∧ (∀ x : ExistingBlock, ∀ e2 : Int,
        x.startTime < x.endTime → x.startTime < e2 →
          overlapsAny x.startTime e2 [x] = true) := by
  have hse : ¬ (s ≥ e) := by omega
  refine ⟨?_, ?_, ?_, ?_⟩
  · simp [overlapsAny, List.any_eq_true]
  · by_cases hov : overlapsAny s e existing = true
    · simp [handleSubmit, ht, hse, hov]
    · simp [handleSubmit, ht, hse, hov]
  · intro x e2 h
    simp [overlapsAny]
  · intro x e2 h1 h2
    simp [overlapsAny]
    omega

/-- Witness for C3 at a concrete input: with one existing block
`[0, 10)`, a new block `[10, 20)` is admitted and a new block `[0, 5)`
is rejected. -/
theorem c3_overlap_guard_witness :
    overlapsAny 10 20 [ExistingBlock.mk 0 10] = false
    ∧ overlapsAny 0 5 [ExistingBlock.mk 0 10] = true :=
  ⟨(c3_overlap_guard 1 "t" (by decide) 0 1 (by decide)
      [ExistingBlock.mk 0 10]).2.2.1 (ExistingBlock.mk 0 10) 20 (by decide),
   (c3_overlap_guard 1 "t" (by decide) 0 1 (by decide)
      [ExistingBlock.mk 0 10]).2.2.2 (ExistingBlock.mk 0 10) 5 (by decide)
      (by decide)⟩

/-- C6: when the candidate read fails, the sweep aborts with a 500
response, the store is untouched, and no dispatch is attempted. -/
theorem c6_read_failure_aborts (env : Env) (now : Int) (store : List Block)
    (hf : env.fetchOk = false) :
    (sweep env now store).resp = .fetchError
    ∧ ((sweep env now store).resp).statusCode = 500
    ∧ (sweep env now store).store = store
    ∧ (sweep env now store).attempts = [] := by
  rw [sweep_fetchFail env now store hf]
  exact ⟨rfl, rfl, rfl, rfl⟩

/-- Witness for C6 at a concrete input. -/
theorem c6_read_failure_aborts_witness :
    ((sweep ⟨false, true, fun _ => none, fun _ => false, fun _ => false⟩ 0
        [Block.mk 1 1 "t" 600000 1200000 true false]).resp).statusCode = 500
    ∧ (sweep ⟨false, true, fun _ => none, fun _ => false, fun _ => false⟩ 0
        [Block.mk 1 1 "t" 600000 1200000 true false]).store
        = [Block.mk 1 1 "t" 600000 1200000 true false] :=
  ⟨(c6_read_failure_aborts ⟨false, true, fun _ => none, fun _ => false,
      fun _ => false⟩ 0 [Block.mk 1 1 "t" 600000 1200000 true false] rfl).2.1,
   (c6_read_failure_aborts ⟨false, true, fun _ => none, fun _ => false,
      fun _ => false⟩ 0 [Block.mk 1 1 "t" 600000 1200000 true false] rfl).2.2.1⟩

/-- C10: the trigger endpoint rejects a request as 401 unauthorized,
without touching any state, exactly when a secret is configured, the
request does not present it as a bearer token, the deployment is
production, and the request is not from a known cron service; presenting
the secret, non-production contexts, known cron services, and absence of
a configured secret all proceed to the sweep, and POST behaves exactly
like GET. -/
theorem c10_authorization_gate (env : Env) (req : Request)
    (cronSecret : Option String) (isProduction : Bool) (now : Int)
    (store : List Block) :
    ((handleGET env req cronSecret isProduction now store).resp = .unauthorized
        ↔ isProduction = true ∧ isKnownCronService req.userAgent = false
            ∧ ∃ s, cronSecret = some s ∧ req.authHeader ≠ some ("Bearer " ++ s))
    ∧ ((handleGET env req cronSecret isProduction now store).resp = .unauthorized →
        (handleGET env req cronSecret isProduction now store).store = store
          ∧ (handleGET env req cronSecret isProduction now store).attempts = []
          ∧ Response.statusCode .unauthorized = 401)
    ∧ (allowRequest cronSecret req.authHeader req.userAgent isProduction = true →
        handleGET env req cronSecret isProduction now store = sweep env now store)
    ∧ (∀ s, cronSecret = some s → req.authHeader = some ("Bearer " ++ s) →
        allowRequest cronSecret req.authHeader req.userAgent isProduction = true)
    ∧ (cronSecret = none →
        allowRequest cronSecret req.authHeader req.userAgent isProduction = true)
    ∧ (isProduction = false →
        allowRequest cronSecret req.authHeader req.userAgent isProduction = true)
    ∧ (isKnownCronService req.userAgent = true →
        allowRequest cronSecret req.authHeader req.userAgent isProduction = true)
    ∧ handlePOST env req cronSecret isProduction now store
        = handleGET env req cronSecret isProduction now store := by
  refine ⟨?_, ?_, ?_, ?_, ?_, ?_, ?_, rfl⟩
  · constructor
    · intro h
      by_cases ha : allowRequest cronSecret req.authHeader req.userAgent
          isProduction = true
      · rw [handleGET, if_pos ha] at h
        exact absurd h (sweep_resp_ne_unauthorized env now store)
      · have ha' : allowRequest cronSecret req.authHeader req.userAgent
            isProduction = false := by
          cases hx : allowRequest cronSecret req.authHeader req.userAgent
              isProduction
          · rfl
          · exact absurd hx ha
        exact (allowRequest_false_iff _ _ _ _).mp ha'
    · intro h
      have ha : allowRequest cronSecret req.authHeader req.userAgent
          isProduction = false := (allowRequest_false_iff _ _ _ _).mpr h
      rw [handleGET, if_neg (by simp [ha])]
  · intro h
    by_cases ha : allowRequest cronSecret req.authHeader req.userAgent
        isProduction = true
    · rw [handleGET, if_pos ha] at h
      exact absurd h (sweep_resp_ne_unauthorized env now store)
    · rw [handleGET, if_neg ha]
      exact ⟨rfl, rfl, rfl⟩
  · intro ha
    rw [handleGET, if_pos ha]
  · intro s hs hh
    rw [hs]
    simp [allowRequest, hh]
  · intro hs
    rw [hs]
    simp [allowRequest]
  · intro hp
    cases cronSecret with
    | none => simp [allowRequest]
    | some s =>
      by_cases hh : req.authHeader = some ("Bearer " ++ s)
      · simp [allowRequest, hh]
      · simp [allowRequest, hh, hp]
  · intro hk
    cases cronSecret with
    | none => simp [allowRequest]
    | some s =>
      by_cases hh : req.authHeader = some ("Bearer " ++ s)
      · simp [allowRequest, hh]
      · simp [allowRequest, hh, hk]

/-- Witness for C10 at a concrete input: in production with secret "s"
configured, a request with no authorization header and no user agent is
rejected. -/
theorem c10_authorization_gate_witness :
    (handleGET ⟨true, true, fun _ => none, fun _ => false, fun _ => false⟩
        ⟨none, none⟩ (some "s") true 0 []).resp = .unauthorized :=
  (c10_authorization_gate ⟨true, true, fun _ => none, fun _ => false,
      fun _ => false⟩ ⟨none, none⟩ (some "s") true 0 []).1.mpr
    ⟨rfl, rfl, "s", rfl, by simp⟩

/-- Counterexample to C2 as stated: a candidate block with
`end = now` (so `end ≤ now`) is NOT placed in the expired partition —
the code tests `end < now`, not `end ≤ now` — and the sweep leaves it
active. -/
theorem c2_expiry_boundary_counterexample :
    (Block.mk 1 1 "t" 500 1000 true false).endTime ≤ 1000
    ∧ isCandidate (Block.mk 1 1 "t" 500 1000 true false) = true
    ∧ isExpiredAt 1000 (Block.mk 1 1 "t" 500 1000 true false) = false
    ∧ (sweep ⟨true, true, fun _ => none, fun _ => false, fun _ => false⟩ 1000
        [Block.mk 1 1 "t" 500 1000 true false]).store
        = [Block.mk 1 1 "t" 500 1000 true false] :=
  ⟨by decide, rfl, rfl, rfl⟩

/-- C2 (amended): the sweep partitions the candidates on `end < now`
(strict, not `end ≤ now`): a candidate block with `end < now` is in the
expired partition and is deactivated by the bulk update; one with
`end ≥ now` is not in the expired partition and keeps its active flag;
and the sweep never reactivates a block, so repeated sweeps leave an
already-deactivated block inactive. -/
theorem c2_expiry_partition (env : Env) (now : Int) (store : List Block)
    (hf : env.fetchOk = true) (hu : env.expireUpdateOk = true)
    (hnd : (store.map (·.id)).Nodup)
    (b : Block) (hb : b ∈ store) (hc : isCandidate b = true) :
    (b.endTime < now →
        isExpiredAt now b = true
        ∧ ∃ b', findById b.id (sweep env now store).store = some b'
            ∧ b'.isActive = false)
    ∧ (now ≤ b.endTime →
        isExpiredAt now b = false
        ∧ ∃ b', findById b.id (sweep env now store).store = some b'
            ∧ b'.isActive = b.isActive)
    ∧ (∀ c c', c ∈ store → c.isActive = false →
        findById c.id (sweep env now store).store = some c' →
          c'.isActive = false) := by
  have hact : b.isActive = true := ((isCandidate_iff b).mp hc).1
  have hbf : findById b.id store = some b := findById_of_mem store hnd b hb
  have hsw := findById_sweep env now store hf b.id b hbf
  refine ⟨?_, ?_, ?_⟩
  · intro h
    have hexp : isExpiredAt now b = true := by
      simp [isExpiredAt, hact, h]
    refine ⟨hexp, sweepXform env now store b, hsw, ?_⟩
    have hid : idMem b.id (expiredIdsOf now store) = true :=
      (idMem_expiredIdsOf_iff now store b.id).mpr ⟨b, hb, hc, hexp, rfl⟩
    rw [sweepXform_isActive, hu, hid]
    simp
  · intro h
    have hexp : isExpiredAt now b = false := by
      have : decide (b.endTime < now) = false := by
        simp
        omega
      simp [isExpiredAt, this]
    refine ⟨hexp, sweepXform env now store b, hsw, ?_⟩
    have hid : idMem b.id (expiredIdsOf now store) = false := by
      cases hx : idMem b.id (expiredIdsOf now store)
      · rfl
      · obtain ⟨r, hrm, hrc, hre, hri⟩ := (idMem_expiredIdsOf_iff now store b.id).mp hx
        have : r = b := same_id_eq store hnd r b hrm hb hri
        rw [this] at hre
        rw [hre] at hexp
        exact absurd hexp (by decide)
    rw [sweepXform_isActive, hid]
    simp
  · intro c c' hcm hcact hc'
    have hcf : findById c.id store = some c := findById_of_mem store hnd c hcm
    have h2 := findById_sweep env now store hf c.id c hcf
    have hcc : c' = sweepXform env now store c := Option.some.inj (hc'.symm.trans h2)
    rw [hcc, sweepXform_isActive, hcact]
    simp

/-- Witness for the amended C2 at a concrete input: a candidate block
with `end < now` is deactivated by the sweep. -/
theorem c2_expiry_partition_witness :
    ∃ b', findById 1
        (sweep ⟨true, true, fun _ => none, fun _ => false, fun _ => false⟩ 2000
          [Block.mk 1 1 "t" 500 1000 true false]).store = some b'
      ∧ b'.isActive = false :=
  ((c2_expiry_partition ⟨true, true, fun _ => none, fun _ => false,
      fun _ => false⟩ 2000 [Block.mk 1 1 "t" 500 1000 true false] rfl rfl
      (by decide) (Block.mk 1 1 "t" 500 1000 true false) (by decide)
      rfl).1 (by decide)).2

/-- C4: `reminderSent` is false on the row the creation flow inserts; a
sweep turns it from false to true only if the email transport call for
that block id returned success; and no sweep ever resets it from true
back to false (so the false-to-true transition happens at most once). -/
theorem c4_reminder_sent_transitions (env : Env) (now : Int)
    (store : List Block) (hf : env.fetchOk = true) (i : Nat) (b b' : Block)
    (hb : findById i store = some b)
    (hb' : findById i (sweep env now store).store = some b') :
    (b.reminderSent = false → b'.reminderSent = true → env.emailOk i = true)
    ∧ (b.reminderSent = true → b'.reminderSent = true)
    ∧ (∀ u t st et c ex d,
        handleSubmit u t st et c ex = .inserted d → d.reminderSent = false) := by
  have h2 := findById_sweep env now store hf i b hb
  have hbb : b' = sweepXform env now store b := Option.some.inj (hb'.symm.trans h2)
  subst hbb
  refine ⟨?_, ?_, ?_⟩
  · intro h0 h1
    rw [sweepXform_reminderSent, h0] at h1
    simp at h1
    have hbid : b.id = i := findById_id i store b hb
    obtain ⟨r, hrm, hri, hrs⟩ :=
      (idMem_sentIdsOf_iff env now (readyOf now store) b.id).mp h1
    have hek := processBlock_sent_emailOk env now r hrs
    rw [hri, hbid] at hek
    exact hek
  · intro h0
    rw [sweepXform_reminderSent, h0]
    simp
  · intro u t st et c ex d h
    unfold handleSubmit at h
    repeat' split at h
    all_goals injection h
    all_goals rename_i h1
    all_goals rw [← h1]

theorem sweep_store_map_id (env : Env) (now : Int) (store : List Block)
    (hf : env.fetchOk = true) :
    ((sweep env now store).store).map (·.id) = store.map (·.id) := by
  rw [sweep_store_map env now store hf, List.map_map]
  apply List.map_congr_left
  intro b _
  simp [Function.comp, sweepXform_id]

/-- Counterexample to C5 as stated: a block whose email dispatch SUCCEEDS
but whose reminder-sent store update fails is retried (dispatched again)
by a second sweep at the same instant, so retries are not limited to
blocks whose previous dispatch failed. -/
theorem c5_retry_counterexample :
    dispatchSucceeded
        ⟨true, true, fun _ => some ⟨some "e", none⟩, fun _ => true,
          fun _ => false⟩ 0 (Block.mk 1 1 "t" 600000 1200000 true false) = true
    ∧ (sweep ⟨true, true, fun _ => some ⟨some "e", none⟩, fun _ => true,
          fun _ => false⟩ 0
        [Block.mk 1 1 "t" 600000 1200000 true false]).attempts = [1]
    ∧ (sweep ⟨true, true, fun _ => some ⟨some "e", none⟩, fun _ => true,
          fun _ => false⟩ 0
        (sweep ⟨true, true, fun _ => some ⟨some "e", none⟩, fun _ => true,
            fun _ => false⟩ 0
          [Block.mk 1 1 "t" 600000 1200000 true false]).store).attempts = [1] :=
  ⟨rfl, rfl, rfl⟩

/-- C5 (amended): after a first sweep in which a block's processing ended
in `sent` (dispatch succeeded and the reminder-sent mark was written), a
second sweep at the same instant attempts no dispatch for that block —
it no longer satisfies the candidate filter; in general the second sweep
only attempts blocks that were not successfully marked in the first
sweep (dispatch failed, contact resolution skipped them, or the mark
update failed). -/
theorem c5_no_redispatch_after_marked (env1 env2 : Env) (now : Int)
    (store : List Block) (h1 : env1.fetchOk = true) (h2 : env2.fetchOk = true)
    (hnd : (store.map (·.id)).Nodup) (b : Block)
    (hb : b ∈ readyOf now store) (hs : processBlock env1 now b = .sent) :
    idMem b.id (sweep env2 now (sweep env1 now store).store).attempts = false
    ∧ (∀ j, idMem j (sweep env2 now (sweep env1 now store).store).attempts = true →
        idMem j (sentIdsOf env1 now (readyOf now store)) = false) := by
  have hnd2 : (((sweep env1 now store).store).map (·.id)).Nodup := by
    rw [sweep_store_map_id env1 now store h1]
    exact hnd
  have key : ∀ j,
      idMem j (sweep env2 now (sweep env1 now store).store).attempts = true →
        idMem j (sentIdsOf env1 now (readyOf now store)) = false := by
    intro j hj
    obtain ⟨r, hr, hatt, hrid⟩ :=
      (idMem_sweep_attempts_iff env2 now _ h2 j).mp hj
    obtain ⟨hrmem, hrc, hrready⟩ := (mem_readyOf_iff now _ r).mp hr
    cases hx : idMem j (sentIdsOf env1 now (readyOf now store))
    · rfl
    · exfalso
      obtain ⟨q, hq, hqid, hqs⟩ :=
        (idMem_sentIdsOf_iff env1 now (readyOf now store) j).mp hx
      obtain ⟨hqmem, hqc, hqready⟩ := (mem_readyOf_iff now store q).mp hq
      have hfq : sweepXform env1 now store q ∈ (sweep env1 now store).store := by
        rw [sweep_store_map env1 now store h1]
        exact List.mem_map_of_mem _ hqmem
      have hideq : r.id = (sweepXform env1 now store q).id := by
        rw [sweepXform_id, hqid, hrid]
      have hreq : r = sweepXform env1 now store q :=
        same_id_eq _ hnd2 r _ hrmem hfq hideq
      have hqsent : idMem q.id (sentIdsOf env1 now (readyOf now store)) = true :=
        (idMem_sentIdsOf_iff env1 now (readyOf now store) q.id).mpr
          ⟨q, hq, rfl, hqs⟩
      have hqrs : (sweepXform env1 now store q).reminderSent = true := by
        rw [sweepXform_reminderSent, hqsent]
        simp
      rw [← hreq] at hqrs
      have hrrs : r.reminderSent = false := ((isCandidate_iff r).mp hrc).2
      simp_all
  refine ⟨?_, key⟩
  cases hmem : idMem b.id (sweep env2 now (sweep env1 now store).store).attempts
  · rfl
  · exfalso
    have hkey := key b.id hmem
    have hbs : idMem b.id (sentIdsOf env1 now (readyOf now store)) = true :=
      (idMem_sentIdsOf_iff env1 now (readyOf now store) b.id).mpr
        ⟨b, hb, rfl, hs⟩
    simp_all

/-- Witness for the amended C5 at a concrete input: a block dispatched
and marked in a first sweep is not dispatched by a second sweep at the
same instant. -/
theorem c5_no_redispatch_after_marked_witness :
    idMem 1 (sweep
        ⟨true, true, fun _ => some ⟨some "e", none⟩, fun _ => true,
          fun _ => true⟩ 0
        (sweep ⟨true, true, fun _ => some ⟨some "e", none⟩, fun _ => true,
            fun _ => true⟩ 0
          [Block.mk 1 1 "t" 600000 1200000 true false]).store).attempts
      = false :=
  (c5_no_redispatch_after_marked
      ⟨true, true, fun _ => some ⟨some "e", none⟩, fun _ => true, fun _ => true⟩
      ⟨true, true, fun _ => some ⟨some "e", none⟩, fun _ => true, fun _ => true⟩
      0 [Block.mk 1 1 "t" 600000 1200000 true false] rfl rfl (by decide)
      (Block.mk 1 1 "t" 600000 1200000 true false) (by decide) rfl).1

/-- C7: a due block whose profile lookup fails, whose profile has no
email, or whose email transport call fails is skipped without setting
`reminderSent` (it stays false), and the sweep continues: it does not
abort, and every other ready block whose dispatch is attempted is still
attempted. -/
theorem c7_per_block_failure_skips (env : Env) (now : Int)
    (store : List Block) (hf : env.fetchOk = true)
    (hnd : (store.map (·.id)).Nodup) (b : Block)
    (hb : b ∈ store) (hc : isCandidate b = true)
    (hfail : processBlock env now b = .skippedProfile
        ∨ processBlock env now b = .skippedNoEmail
        ∨ processBlock env now b = .emailFailed) :
    (∃ b', findById b.id (sweep env now store).store = some b'
        ∧ b'.reminderSent = false)
    ∧ (sweep env now store).resp ≠ .fetchError
    ∧ (∀ c ∈ readyOf now store, dispatchAttempted env now c = true →
        idMem c.id (sweep env now store).attempts = true) := by
  have hbf : findById b.id store = some b := findById_of_mem store hnd b hb
  have hsw := findById_sweep env now store hf b.id b hbf
  have hrs : b.reminderSent = false := ((isCandidate_iff b).mp hc).2
  refine ⟨⟨sweepXform env now store b, hsw, ?_⟩, ?_, ?_⟩
  · rw [sweepXform_reminderSent, hrs]
    simp only [Bool.false_or]
    cases hx : idMem b.id (sentIdsOf env now (readyOf now store))
    · rfl
    · exfalso
      obtain ⟨r, hr, hrid, hrsent⟩ :=
        (idMem_sentIdsOf_iff env now (readyOf now store) b.id).mp hx
      obtain ⟨hrmem, -, -⟩ := (mem_readyOf_iff now store r).mp hr
      have hrb : r = b := same_id_eq store hnd r b hrmem hb hrid
      rw [hrb] at hrsent
      rcases hfail with h | h | h <;>
        · rw [h] at hrsent
          exact absurd hrsent (by decide)
  · rw [sweep_resp_char env now store hf]
    by_cases hl : (readyOf now store).length = 0
    · rw [if_pos hl]
      simp
    · rw [if_neg hl]
      simp
  · intro c hcr hatt
    exact (idMem_sweep_attempts_iff env now store hf c.id).mpr ⟨c, hcr, hatt, rfl⟩

/-- Witness for C7 at a concrete input: a due block whose profile lookup
fails keeps `reminderSent = false` after the sweep. -/
theorem c7_per_block_failure_skips_witness :
    ∃ b', findById 1 (sweep ⟨true, true, fun _ => none, fun _ => true,
        fun _ => true⟩ 0
          [Block.mk 1 1 "t" 600000 1200000 true false]).store = some b'
      ∧ b'.reminderSent = false :=
  (c7_per_block_failure_skips
      ⟨true, true, fun _ => none, fun _ => true, fun _ => true⟩ 0
      [Block.mk 1 1 "t" 600000 1200000 true false] rfl (by decide)
      (Block.mk 1 1 "t" 600000 1200000 true false) (by decide) rfl
      (Or.inl rfl)).1

/-- C8: when the email dispatch for a due block succeeds but the store
update setting `reminder_sent = true` fails, the block keeps
`reminderSent = false`, it is counted by the errors counter and not the
sent counter, and a later sweep at an instant still satisfying the
due-window test dispatches a second email for it. -/
theorem c8_mark_failure_redispatch (env : Env) (now : Int)
    (store : List Block) (hf : env.fetchOk = true)
    (hnd : (store.map (·.id)).Nodup) (b : Block)
    (hb : b ∈ store) (hc : isCandidate b = true)
    (hready : isReadyAt now b = true) (hdue : isDueAt now b = true)
    (p : Profile) (em : String)
    (hp : env.profile b.userId = some p) (he : p.email = some em)
    (hek : env.emailOk b.id = true) (huk : env.updateOk b.id = false) :
    processBlock env now b = .markFailed
    ∧ findById b.id (sweep env now store).store = some b
    ∧ b ∈ errorBlocksOf env now store
    ∧ b ∉ sentBlocksOf env now store
    ∧ (sweep env now store).resp
        = .completed now (candidatesOf store).length
            (sentBlocksOf env now store).length
            (errorBlocksOf env now store).length
    ∧ (∀ env2 : Env, ∀ now2 : Int, ∀ p2 : Profile, ∀ em2 : String,
        env2.fetchOk = true → isDueAt now2 b = true →
          isReadyAt now2 b = true → env2.profile b.userId = some p2 →
            p2.email = some em2 →
              idMem b.id
                (sweep env2 now2 (sweep env now store).store).attempts
                = true) := by
  have hpb : processBlock env now b = .markFailed := by
    rw [processBlock_due_contact env now b p em hdue hp he]
    simp [hek, huk]
  have hbready : b ∈ readyOf now store :=
    (mem_readyOf_iff now store b).mpr ⟨hb, hc, hready⟩
  have hid1 : idMem b.id (expiredIdsOf now store) = false := by
    cases hx : idMem b.id (expiredIdsOf now store)
    · rfl
    · exfalso
      obtain ⟨r, hrm, hrc2, hre, hri⟩ :=
        (idMem_expiredIdsOf_iff now store b.id).mp hx
      have hrb : r = b := same_id_eq store hnd r b hrm hb hri
      rw [hrb] at hre
      simp [isExpiredAt] at hre
      simp [isReadyAt] at hready
      omega
  have hid2 : idMem b.id (sentIdsOf env now (readyOf now store)) = false := by
    cases hx : idMem b.id (sentIdsOf env now (readyOf now store))
    · rfl
    · exfalso
      obtain ⟨r, hr, hri, hrsent⟩ :=
        (idMem_sentIdsOf_iff env now (readyOf now store) b.id).mp hx
      obtain ⟨hrm, -, -⟩ := (mem_readyOf_iff now store r).mp hr
      have hrb : r = b := same_id_eq store hnd r b hrm hb hri
      rw [hrb, hpb] at hrsent
      exact absurd hrsent (by decide)
  have hself : sweepXform env now store b = b :=
    sweepXform_eq_self env now store b hid1 hid2
  have hbf : findById b.id store = some b := findById_of_mem store hnd b hb
  have hsw := findById_sweep env now store hf b.id b hbf
  rw [hself] at hsw
  refine ⟨hpb, hsw, ?_, ?_, ?_, ?_⟩
  · unfold errorBlocksOf
    rw [List.mem_filter]
    exact ⟨hbready, by simp [hpb]⟩
  · intro hmem
    have hps := (List.mem_filter.mp hmem).2
    simp [hpb] at hps
  · have hl : ¬ (readyOf now store).length = 0 := by
      intro h0
      rw [List.length_eq_zero] at h0
      rw [h0] at hbready
      exact absurd hbready (List.not_mem_nil b)
    rw [sweep_resp_char env now store hf, if_neg hl]
  · intro env2 now2 p2 em2 hf2 hdue2 hready2 hp2 he2
    have hmem2 : b ∈ (sweep env now store).store := by
      rw [sweep_store_map env now store hf]
      exact List.mem_map.mpr ⟨b, hb, hself⟩
    have hready2' : b ∈ readyOf now2 (sweep env now store).store :=
      (mem_readyOf_iff now2 _ b).mpr ⟨hmem2, hc, hready2⟩
    have hatt := dispatchAttempted_of_contact env2 now2 b p2 em2 hdue2 hp2 he2
    exact (idMem_sweep_attempts_iff env2 now2 _ hf2 b.id).mpr
      ⟨b, hready2', hatt, rfl⟩

/-- Witness for C8 at a concrete input: with `emailOk` true and
`updateOk` false, a second sweep at the same instant dispatches again. -/
theorem c8_mark_failure_redispatch_witness :
    idMem 1 (sweep
        ⟨true, true, fun _ => some ⟨some "e", none⟩, fun _ => true,
          fun _ => false⟩ 0
        (sweep ⟨true, true, fun _ => some ⟨some "e", none⟩, fun _ => true,
            fun _ => false⟩ 0
          [Block.mk 1 1 "t" 600000 1200000 true false]).store).attempts
      = true :=
  (c8_mark_failure_redispatch
      ⟨true, true, fun _ => some ⟨some "e", none⟩, fun _ => true,
        fun _ => false⟩ 0 [Block.mk 1 1 "t" 600000 1200000 true false]
      rfl (by decide) (Block.mk 1 1 "t" 600000 1200000 true false)
      (by decide) rfl rfl rfl ⟨some "e", none⟩ "e" rfl rfl rfl rfl).2.2.2.2.2
    ⟨true, true, fun _ => some ⟨some "e", none⟩, fun _ => true, fun _ => false⟩
    0 ⟨some "e", none⟩ "e" rfl rfl rfl rfl rfl

/-- Counterexample to C9 as stated: a sweep whose candidate read
succeeds but finds no ready block returns a 200 payload WITHOUT the
`processed` and `errors` fields (it has `checked`/`expired` instead). -/
theorem c9_summary_fields_counterexample :
    (⟨true, true, fun _ => none, fun _ => false, fun _ => false⟩ : Env).fetchOk
        = true
    ∧ (sweep ⟨true, true, fun _ => none, fun _ => false, fun _ => false⟩ 0
        ([] : List Block)).resp = .noActive 0 0 0 0
    ∧ ((sweep ⟨true, true, fun _ => none, fun _ => false, fun _ => false⟩ 0
        ([] : List Block)).resp).statusCode = 200
    ∧ ((sweep ⟨true, true, fun _ => none, fun _ => false, fun _ => false⟩ 0
        ([] : List Block)).resp).hasProcessedField = false
    ∧ ((sweep ⟨true, true, fun _ => none, fun _ => false, fun _ => false⟩ 0
        ([] : List Block)).resp).hasErrorsField = false :=
  ⟨rfl, rfl, rfl, rfl, rfl⟩

/-- C9 (amended): when the candidate read succeeds and at least one block
passes the ready filter, the sweep returns the 200 summary
`{ timestamp, processed, sent, errors }` with `processed` the number of
candidates read, `sent` the successfully dispatched-and-marked count and
`errors` the per-block failure count; when no block passes the ready
filter it returns the 200 payload `{ timestamp, checked, expired, sent: 0 }`
(without `processed`/`errors`); a candidate-read failure returns 500. -/
theorem c9_response_summary (env : Env) (now : Int) (store : List Block) :
    (env.fetchOk = true → ¬ (readyOf now store).length = 0 →
        (sweep env now store).resp
          = .completed now (candidatesOf store).length
              (sentBlocksOf env now store).length
              (errorBlocksOf env now store).length
          ∧ ((sweep env now store).resp).statusCode = 200
          ∧ ((sweep env now store).resp).hasProcessedField = true
          ∧ ((sweep env now store).resp).hasErrorsField = true)
    ∧ (env.fetchOk = true → (readyOf now store).length = 0 →
        (sweep env now store).resp
          = .noActive now (candidatesOf store).length
              (expiredOf now store).length 0
          ∧ ((sweep env now store).resp).statusCode = 200
          ∧ ((sweep env now store).resp).hasProcessedField = false
          ∧ ((sweep env now store).resp).hasErrorsField = false)
    ∧ (env.fetchOk = false →
        (sweep env now store).resp = .fetchError
          ∧ ((sweep env now store).resp).statusCode = 500) := by
  refine ⟨?_, ?_, ?_⟩
  · intro hf hl
    rw [sweep_resp_char env now store hf, if_neg hl]
    exact ⟨rfl, rfl, rfl, rfl⟩
  · intro hf hl
    rw [sweep_resp_char env now store hf, if_pos hl]
    exact ⟨rfl, rfl, rfl, rfl⟩
  · intro hf
    rw [sweep_fetchFail env now store hf]
    exact ⟨rfl, rfl⟩

/-- Witness for the amended C9 at a concrete input: one ready candidate
whose profile lookup fails yields the full summary with `processed = 1`,
`sent = 0`, `errors = 0`. -/
theorem c9_response_summary_witness :
    (sweep ⟨true, true, fun _ => none, fun _ => true, fun _ => true⟩ 0
        [Block.mk 1 1 "t" 600000 1200000 true false]).resp
      = .completed 0 1 0 0 :=
  ((c9_response_summary ⟨true, true, fun _ => none, fun _ => true,
      fun _ => true⟩ 0 [Block.mk 1 1 "t" 600000 1200000 true false]).1
    rfl (by decide)).1

/-- Witness for C4 at a concrete input: the creation flow inserts the row
with `reminder_sent = false`. -/
theorem c4_reminder_sent_transitions_witness :
    (InsertData.mk 1 "t" 0 10 true false).reminderSent = false :=
  (c4_reminder_sent_transitions
      ⟨true, true, fun _ => none, fun _ => false, fun _ => false⟩ 0
      [Block.mk 1 1 "t" 600000 1200000 true false] rfl 1
      (Block.mk 1 1 "t" 600000 1200000 true false)
      (Block.mk 1 1 "t" 600000 1200000 true false) rfl rfl).2.2
    1 "t" (some 0) (some 10) true [] (InsertData.mk 1 "t" 0 10 true false) rfl

end QuietHours
